import Mathlib

/-!
Verification development for the simple-astro-api repository.

The repository’s own logic (degree normalization, zodiac-sign lookup, the
Julian Day formula, provider-result shape probing, house assignment, query
validation and the keyword-routed chat composer) is embedded shallowly:
JavaScript numbers are modelled as exact rationals plus the non-finite
values, JavaScript runtime values as an inductive `JSVal`, and code that can
throw as `Except`-valued functions.  Each definition is translated from the
TypeScript source in `api/positions.ts`, `api/chat` (part_000),
`api/houses-test` (part_001), the robust positions variant (part_002) and
`api/simple-test` (part_003).
-/

set_option maxRecDepth 10000

/-- JavaScript number: a finite double (modelled as an exact rational) or one
of the non-finite values NaN, Infinity and -Infinity. -/
inductive JSNum where
  | fin (q : ℚ)
  | nan
  | inf
  | ninf
deriving DecidableEq

/-- JavaScript runtime value as received from the ephemeris provider or from a
JSON request body. -/
inductive JSVal where
  | vnull
  | vundefined
  | vnum (n : JSNum)
  | vbool (b : Bool)
  | vstr (s : String)
  | varr (elems : List JSVal)
  | vobj (fields : List (String × JSVal))

/-- JavaScript truthiness: null, undefined, NaN, 0, the empty string and
false are falsy; every other value (including any array or object) is
truthy. -/
def truthy : JSVal → Bool
  | JSVal.vnull => false
  | JSVal.vundefined => false
  | JSVal.vnum (JSNum.fin q) => !(q == 0)
  | JSVal.vnum JSNum.nan => false
  | JSVal.vnum JSNum.inf => true
  | JSVal.vnum JSNum.ninf => true
  | JSVal.vbool b => b
  | JSVal.vstr s => !(s == "")
  | JSVal.varr _ => true
  | JSVal.vobj _ => true

/-- A value is nullish (null or undefined); this is what `??` and the `?.`
optional chain test for. -/
def nullish : JSVal → Bool
  | JSVal.vnull => true
  | JSVal.vundefined => true
  | _ => false

/-- Property read `v.k`: on an object the first binding of the key (or
undefined); on every other value undefined.  Callers guard the nullish cases
where the source does. -/
def getProp (v : JSVal) (k : String) : JSVal :=
  match v with
  | JSVal.vobj fields =>
      match fields.find? (fun f => f.1 == k) with
      | some f => f.2
      | none => JSVal.vundefined
  | _ => JSVal.vundefined

/-- The JavaScript `in` operator restricted to the shapes the source probes:
key presence on a plain object, false elsewhere. -/
def hasField (v : JSVal) (k : String) : Bool :=
  match v with
  | JSVal.vobj fields => fields.any (fun f => f.1 == k)
  | _ => false

/-- `typeof v === \x27object\x27` (true for objects, arrays and null). -/
def isObjType : JSVal → Bool
  | JSVal.vnull => true
  | JSVal.vobj _ => true
  | JSVal.varr _ => true
  | _ => false

/-- Truncation toward zero, as JavaScript’s `%` operator uses. -/
def jsTrunc (q : ℚ) : ℤ := if 0 ≤ q then ⌊q⌋ else ⌈q⌉

/-- The JavaScript remainder operator `x % y` on finite numbers: the result
has the sign of the dividend.  (Division by zero does not occur at any call
site in the source; the source only takes `% 360`.) -/
def jsMod (x y : ℚ) : ℚ := x - y * (jsTrunc (x / y) : ℤ)

/-- `degNorm` from the source: `((x % 360) + 360) % 360`. -/
def degNorm (x : ℚ) : ℚ := jsMod (jsMod x 360 + 360) 360

/-- The fixed ordered zodiac list from `signName`. -/
def signs : List String :=
  ["Aries", "Taurus", "Gemini", "Cancer", "Leo", "Virgo", "Libra", "Scorpio",
   "Sagittarius", "Capricorn", "Aquarius", "Pisces"]

/-- `signName` from the source: index `Math.floor(degNorm(deg) / 30)` into the
fixed list; an out-of-range index would read as JavaScript `undefined`,
modelled by `none`. -/
def signName (deg : ℚ) : Option String :=
  let idx : ℤ := ⌊degNorm deg / 30⌋
  if idx < 0 then none else signs.get? idx.toNat

/-- `julianDay` from the source (pure Gregorian-calendar Julian Day):
`a = Math.floor((14 - m) / 12)`, `y2 = y + 4800 - a`, `m2 = m + 12 a - 3`,
`jd0 = d + Math.floor((153 m2 + 2) / 5) + 365 y2 + Math.floor(y2 / 4)
- Math.floor(y2 / 100) + Math.floor(y2 / 400) - 32045`, and the result is
`jd0 - 0.5 + utHours / 24`. -/
def julianDay (y m d : ℤ) (utHours : ℚ) : ℚ :=
  let a : ℤ := ⌊((14 - m : ℤ) : ℚ) / 12⌋
  let y2 : ℤ := y + 4800 - a
  let m2 : ℤ := m + 12 * a - 3
  let jd0 : ℚ :=
    (d : ℚ) + ((⌊((153 * m2 + 2 : ℤ) : ℚ) / 5⌋ : ℤ) : ℚ) + 365 * (y2 : ℚ) +
      ((⌊(y2 : ℚ) / 4⌋ : ℤ) : ℚ) - ((⌊(y2 : ℚ) / 100⌋ : ℤ) : ℚ) +
      ((⌊(y2 : ℚ) / 400⌋ : ℤ) : ℚ) - 32045
  jd0 - 1 / 2 + utHours / 24

/-- The civil-calendar Julian Day formula exactly as the specification states
it, written independently of `julianDay` so the refinement can be checked:
with `a = floor((14 - month) / 12)`, `yp = year + 4800 - a`,
`mp = month + 12 a - 3`, the value is `day + floor((153 mp + 2) / 5) + 365 yp
+ floor(yp / 4) - floor(yp / 100) + floor(yp / 400) - 32045 - 0.5
+ utHours / 24`. -/
def toJulianDaySpec (y m d : ℤ) (utHours : ℚ) : ℚ :=
  let a : ℤ := ⌊((14 - m : ℤ) : ℚ) / 12⌋
  let yp : ℤ := y + 4800 - a
  let mp : ℤ := m + 12 * a - 3
  (d : ℚ) + ((⌊((153 * mp + 2 : ℤ) : ℚ) / 5⌋ : ℤ) : ℚ) + 365 * (yp : ℚ) +
      ((⌊(yp : ℚ) / 4⌋ : ℤ) : ℚ) - ((⌊(yp : ℚ) / 100⌋ : ℤ) : ℚ) +
      ((⌊(yp : ℚ) / 400⌋ : ℤ) : ℚ) - 32045 - 1 / 2 + utHours / 24

/-- First branch of `extractLongitude`: a structure exposing a `data` array
whose first element is a finite number. -/
def dataArrayHead (r : JSVal) : Option ℚ :=
  match getProp r ("data") with
  | JSVal.varr (JSVal.vnum (JSNum.fin q) :: _) => some q
  | _ => none

/-- Named-field branch of `extractLongitude`: a finite `longitude` field, else
a finite `lon` field (a present but non-finite `longitude` falls through to
`lon`, as in the source). -/
def finiteField (r : JSVal) (k : String) : Option ℚ :=
  if hasField r k then
    match getProp r k with
    | JSVal.vnum (JSNum.fin q) => some q
    | _ => none
  else none

/-- The two named-field probes in their source order. -/
def namedLongitude (r : JSVal) : Option ℚ :=
  match finiteField r ("longitude") with
  | some q => some q
  | none => finiteField r ("lon")

/-- Array branch of `extractLongitude`: a finite first element. -/
def arrayHead (r : JSVal) : Option ℚ :=
  match r with
  | JSVal.varr (JSVal.vnum (JSNum.fin q) :: _) => some q
  | _ => none

/-- Plain-number branch of `extractLongitude`. -/
def plainFinite (r : JSVal) : Option ℚ :=
  match r with
  | JSVal.vnum (JSNum.fin q) => some q
  | _ => none

/-- `extractLongitude` from the source: `if (!r) return null`, then the four
shape probes in their fixed order — a `data` array’s finite first element,
the named fields `longitude` then `lon`, an array’s finite first element, a
finite plain number — otherwise null (`none`). -/
def extractLongitude (r : JSVal) : Option ℚ :=
  if truthy r = false then none
  else
    match (if truthy r && isObjType r then dataArrayHead r else none) with
    | some q => some q
    | none =>
      match (if isObjType r then namedLongitude r else none) with
      | some q => some q
      | none =>
        match arrayHead r with
        | some q => some q
        | none => plainFinite r

/-- A planet entry of the positions response.  `degree` is `none` where the
source stores `NaN`; `sign` is `none` where the source would store JavaScript
`undefined`.  Retrograde determination involves no claim and is omitted. -/
structure Planet where
  name : String
  degree : Option ℚ
  sign : Option String
  house : Option Nat
deriving DecidableEq

/-- Construction of one planet entry in the robust positions handler: an
extractable longitude is normalized and given its zodiac sign, an
unextractable one yields the degraded entry with `NaN` degree and sign
`Unknown`. -/
def mkPlanet (name : String) (r : JSVal) : Planet :=
  match extractLongitude r with
  | none => { name := name, degree := none, sign := some ("Unknown"), house := none }
  | some lonDeg =>
      { name := name, degree := some (degNorm lonDeg), sign := signName (degNorm lonDeg),
        house := none }

/-- The wrap-aware interval test of the house-assignment loop:
`start <= end ? (deg >= start && deg < end) : (deg >= start || deg < end)`. -/
def inHouse (lo hi d : ℚ) : Bool :=
  if lo ≤ hi then decide (lo ≤ d) && decide (d < hi)
  else decide (lo ≤ d) || decide (d < hi)

/-- One iteration’s test of the house loop: the planet degree against
`cusps[i]` and `cusps[(i + 1) % 12]`. -/
def cuspMatch (cusps : List ℚ) (d : ℚ) (i : ℕ) : Bool :=
  inHouse (cusps.getD i 0) (cusps.getD ((i + 1) % 12) 0) d

/-- The house-assignment scan: `houseNum` starts at 12, indices `i` from the
given start with the given remaining count; the first matching index `i`
yields house `i + 1`. -/
def houseLoop (cusps : List ℚ) (d : ℚ) : ℕ → ℕ → ℕ
  | _, 0 => 12
  | i, k + 1 => if cuspMatch cusps d i then i + 1 else houseLoop cusps d (i + 1) k

/-- House of a finite planet degree: scan houses 1..12 in cusp order, default
12. -/
def houseOf (cusps : List ℚ) (d : ℚ) : ℕ := houseLoop cusps d 0 12

/-- Per-planet update of the assignment loop: a planet with a non-finite
degree is skipped, otherwise its house is set. -/
def houseUpd (cusps : List ℚ) (p : Planet) : Planet :=
  match p.degree with
  | none => p
  | some d => { p with house := some (houseOf cusps d) }

/-- `assignHouses`: only runs when exactly 12 cusps are present. -/
def assignHouses (planets : List Planet) (cusps : List ℚ) : List Planet :=
  if cusps.length = 12 then planets.map (houseUpd cusps) else planets

/-- Discriminator for `Except` results of provider calls. -/
def isOkE (e : Except String JSVal) : Bool :=
  match e with
  | Except.ok _ => true
  | Except.error _ => false

/-- The value of a successful provider call (unreachable default for an
error). -/
def okValue (e : Except String JSVal) : JSVal :=
  match e with
  | Except.ok v => v
  | Except.error _ => JSVal.vundefined

/-- The per-body loop of the positions handler: each body is computed by one
provider call (`calcFn`); a thrown provider error propagates out of the loop to
the handler’s outer catch, while a returned value — extractable or not — is
turned into a planet entry. -/
def handlerPlanets (calcFn : String → Except String JSVal) : List String → Except String (List Planet)
  | [] => Except.ok []
  | b :: rest =>
    match calcFn b with
    | Except.error e => Except.error e
    | Except.ok v =>
      match handlerPlanets calcFn rest with
      | Except.error e => Except.error e
      | Except.ok ps => Except.ok (mkPlanet b v :: ps)

/-- The fixed body list of the positions handlers. -/
def bodyNames : List String :=
  ["Sun", "Moon", "Mercury", "Venus", "Mars", "Jupiter", "Saturn", "Uranus",
   "Neptune", "Pluto"]

/-- Left-pad a digit string with zeros to the given width. -/
def padLeftZeros (s : String) (k : ℕ) : String :=
  String.mk (List.replicate (k - s.length) '0') ++ s

/-- Decimal display of an exact rational, matching how JavaScript prints the
corresponding number when its value has a terminating decimal expansion (the
only case a chart produced by this API can contain); an expansion that does
not terminate within 20 digits is displayed as a fraction, a case no claim
exercises. -/
def ratDecString (q : ℚ) : String :=
  match (List.range 20).find? (fun k => decide (q.den ∣ 10 ^ k)) with
  | some k =>
      let n : ℤ := q.num * (10 : ℤ) ^ k / (q.den : ℤ)
      let m : ℕ := n.natAbs
      let si : String := if n < 0 then ("-") else ("")
      if k = 0 then si ++ toString m
      else si ++ toString (m / 10 ^ k) ++ "." ++ padLeftZeros (toString (m % 10 ^ k)) k
  | none => toString q.num ++ "/" ++ toString q.den

/-- Display of a JavaScript number in a template literal. -/
def numToString : JSNum → String
  | JSNum.nan => "NaN"
  | JSNum.inf => "Infinity"
  | JSNum.ninf => "-Infinity"
  | JSNum.fin q => ratDecString q

mutual

/-- String conversion of a value in a template literal (`String(v)` /
`${v}`): strings pass through, an array joins its elements with commas, an
object displays as `[object Object]`. -/
def jsDisplay : JSVal → String
  | JSVal.vnull => "null"
  | JSVal.vundefined => "undefined"
  | JSVal.vbool b => if b then ("true") else ("false")
  | JSVal.vnum n => numToString n
  | JSVal.vstr s => s
  | JSVal.varr xs => jsDisplayList xs
  | JSVal.vobj _ => "[object Object]"

/-- Comma join of array elements for display. -/
def jsDisplayList : List JSVal → String
  | [] => ""
  | [v] => jsDisplayElem v
  | v :: rest => jsDisplayElem v ++ "," ++ jsDisplayList rest

/-- Inside an array join, null and undefined display as empty. -/
def jsDisplayElem : JSVal → String
  | JSVal.vnull => ""
  | JSVal.vundefined => ""
  | JSVal.vbool b => if b then ("true") else ("false")
  | JSVal.vnum n => numToString n
  | JSVal.vstr s => s
  | JSVal.varr xs => jsDisplayList xs
  | JSVal.vobj _ => "[object Object]"

end

/-- `x.toFixed(2)` on the exact-rational model: round to the closest
hundredth, ties toward the larger scaled value, printed with exactly two
decimals. -/
def toFixed2 (q : ℚ) : String :=
  let n : ℤ := ⌊q * 100 + 1 / 2⌋
  let m : ℕ := n.natAbs
  (if n < 0 then ("-") else ("")) ++ toString (m / 100) ++ "." ++
    padLeftZeros (toString (m % 100)) 2

/-- `fmtDeg` from the chat handler: a finite number prints with two decimals
and a degree mark, anything else prints as a dash. -/
def fmtDeg (x : JSVal) : String :=
  match x with
  | JSVal.vnum (JSNum.fin q) => toFixed2 q ++ "°"
  | _ => "-"

/-- The `?.` optional chain `v?.k`: undefined when `v` is nullish, otherwise
the property read. -/
def optChain (v : JSVal) (k : String) : JSVal :=
  if nullish v then JSVal.vundefined else getProp v k

/-- An unguarded member access `v.k`, which throws on a nullish `v`. -/
def getMember (v : JSVal) (k : String) : Except Unit JSVal :=
  if nullish v then Except.error () else Except.ok (getProp v k)

/-- Strict equality `v === s` against a string literal. -/
def jsStrictEqStr (v : JSVal) (s : String) : Bool :=
  match v with
  | JSVal.vstr t => t == s
  | _ => false

/-- The `find` callback scan `xs.find(p => p.name === nm)`: the member access
`p.name` throws on a nullish element; an exhausted scan yields undefined. -/
def findByName (xs : List JSVal) (nm : String) : Except Unit JSVal :=
  match xs with
  | [] => Except.ok JSVal.vundefined
  | p :: rest =>
    match getMember p ("name") with
    | Except.error e => Except.error e
    | Except.ok nv =>
      if jsStrictEqStr nv nm then Except.ok p else findByName rest nm

/-- `planets?.find(p => p.name === nm)`: undefined when `planets` is nullish;
calling `find` on a non-array throws a TypeError. -/
def jsFindPlanet (planets : JSVal) (nm : String) : Except Unit JSVal :=
  if nullish planets then Except.ok JSVal.vundefined
  else
    match planets with
    | JSVal.varr xs => findByName xs nm
    | _ => Except.error ()

/-- Nullish coalescing `v ?? fallback`. -/
def jsNCoalesce (v fallback : JSVal) : JSVal :=
  if nullish v then fallback else v

/-- One pushed summary part for the Sun or the Moon:
`` `<label> ${fmtDeg(p.degree)} ${p.sign} H${p.house ?? ’-’}` ``. -/
def planetLine (label : String) (p : JSVal) : String :=
  label ++ " " ++ fmtDeg (getProp p ("degree")) ++ " " ++
    jsDisplay (getProp p ("sign")) ++ " H" ++
    jsDisplay (jsNCoalesce (getProp p ("house")) (JSVal.vstr ("-")))

/-- The pushed ascendant part: `` `Asc ${fmtDeg(asc.degree)} ${asc.sign}` ``
(no house component). -/
def ascLine (a : JSVal) : String :=
  "Asc " ++ fmtDeg (getProp a ("degree")) ++ " " ++ jsDisplay (getProp a ("sign"))

/-- `parts.join(’ • ’)`. -/
def joinParts : List String → String
  | [] => ""
  | [x] => x
  | x :: rest => x ++ " • " ++ joinParts rest

/-- The body of `makeSummary` before its catch: find the Sun and the Moon in
`chart?.planets`, read `chart?.angles?.asc`, push a part for each truthy one,
and join.  A thrown TypeError is the error case. -/
def makeSummaryCore (chart : JSVal) : Except Unit String :=
  match jsFindPlanet (optChain chart ("planets")) ("Sun") with
  | Except.error e => Except.error e
  | Except.ok sun =>
    match jsFindPlanet (optChain chart ("planets")) ("Moon") with
    | Except.error e => Except.error e
    | Except.ok moon =>
      let asc := optChain (optChain chart ("angles")) ("asc")
      let parts : List String :=
        (if truthy sun then [planetLine ("Sun") sun] else []) ++
        (if truthy moon then [planetLine ("Moon") moon] else []) ++
        (if truthy asc then [ascLine asc] else [])
      Except.ok (joinParts parts)

/-- `makeSummary` from the chat handler: any internal failure is caught and
yields the empty string. -/
def makeSummary (chart : JSVal) : String :=
  match makeSummaryCore chart with
  | Except.ok s => s
  | Except.error _ => ""

/-- Substring prefix test on character lists. -/
def leadsWith : List Char → List Char → Bool
  | [], _ => true
  | _ :: _, [] => false
  | a :: pa, b :: pb => a == b && leadsWith pa pb

/-- Substring occurrence on character lists. -/
def occursInL (pat : List Char) : List Char → Bool
  | [] => leadsWith pat []
  | c :: rest => leadsWith pat (c :: rest) || occursInL pat rest

/-- JavaScript `s.includes(pat)`. -/
def jsIncludes (s pat : String) : Bool := occursInL pat.toList s.toList

/-- ASCII lower-casing, as `toLowerCase()` acts on the keyword alphabet. -/
def lowerStr (s : String) : String := s.map Char.toLower

/-- Fixed career guidance text from the chat handler. -/
def careerGuidance : String :=
  "Your MC and 10th house themes illuminate your public path. Consider the sign on your Midheaven and any planets in the 10th."

/-- Fixed love guidance text from the chat handler. -/
def loveGuidance : String :=
  "Look to Venus and the 7th house for partnership patterns. The ruler of the 7th and aspects to Venus offer further nuance."

/-- Fixed purpose guidance text from the chat handler. -/
def purposeGuidance : String :=
  "Your Sun’s sign and house show core vitality; the North Node can hint at a growth trajectory."

/-- Fixed health guidance text from the chat handler. -/
def healthGuidance : String :=
  "The 6th house and its ruler speak to daily rhythms and care. Observe planets there for habits that support you."

/-- Fixed generic prompt from the chat handler. -/
def genericGuidance : String :=
  "Ask about love, career, purpose, timing, or any part of your chart you’re drawn to. I will focus my reading accordingly."

/-- The keyword routing of the chat handler: lower-case the message and test
the topic keyword pairs in their fixed order. -/
def route (message : String) : String :=
  let text := lowerStr message
  if jsIncludes text ("career") || jsIncludes text ("work") then careerGuidance
  else if jsIncludes text ("love") || jsIncludes text ("relationship") then loveGuidance
  else if jsIncludes text ("purpose") || jsIncludes text ("life") then purposeGuidance
  else if jsIncludes text ("health") || jsIncludes text ("wellbeing") then healthGuidance
  else genericGuidance

/-- The reply template of the chat handler. -/
def composeReply (message chart : JSVal) : String :=
  "Coaler: " ++ ("I see your chart: " ++ makeSummary chart ++ ".") ++ " " ++
    route (jsDisplay message) ++ " What would you like to explore next?"

/-- Outcome of the chat endpoint as far as the claims reach: the 405 method
rejection, the 400 validation rejection, or a composed reply. -/
inductive ChatResp where
  | methodErr (e : String)
  | badReq (e : String)
  | ok (reply : String)
deriving DecidableEq

/-- The 400 message of the chat endpoint. -/
def provideMsg : String := "Provide \x7b message, chart \x7d in JSON body."

/-- The chat handler: method gate, `req.body || \x7b\x7d`, the truthiness
presence test `!message || !chart`, then reply composition. -/
def chatHandler (method : String) (body : JSVal) : ChatResp :=
  if method ≠ ("POST") then ChatResp.methodErr ("Use POST")
  else
    let b := if truthy body then body else JSVal.vobj []
    let message := getProp b ("message")
    let chart := getProp b ("chart")
    if !truthy message || !truthy chart then ChatResp.badReq provideMsg
    else ChatResp.ok (composeReply message chart)

/-- Query of the basic positions handler: the four required raw string
parameters (absent or present). -/
structure QueryV1 where
  date : Option String
  time : Option String
  lat : Option String
  lng : Option String

/-- JavaScript falsiness of a possibly-absent string parameter: absent or
empty. -/
def falsyStr : Option String → Bool
  | none => true
  | some s => s == ""

/-- The basic handler’s missing-parameter test `!date || !time || !latStr ||
!lngStr`. -/
def missingAnyV1 (q : QueryV1) : Bool :=
  falsyStr q.date || falsyStr q.time || falsyStr q.lat || falsyStr q.lng

/-- The basic handler’s 400 message. -/
def missingMsg : String := "Missing date, time, lat, or lng"

/-- `Number(s)` on the integral strings the handlers parse after validation;
an unparsable string is NaN, modelled as 0 only through `zOfStr`’s callers,
all of which sit behind the digit-string validators. -/
def zOfStr (s : String) : ℤ := (s.toInt?).getD 0

/-- The basic positions handler up to its Julian Day computation: the
missing-parameter gate precedes every provider interaction, so the provider’s
`julday` is a parameter and is only reachable past the gate. -/
def handlerV1jd (swejd : ℤ → ℤ → ℤ → ℚ → ℚ) (q : QueryV1) : Except String ℚ :=
  if missingAnyV1 q then Except.error missingMsg
  else
    let dp := (q.date.getD ("")).splitOn ("-")
    let tp := (q.time.getD ("")).splitOn (":")
    let y := zOfStr (dp.getD 0 (""))
    let mo := zOfStr (dp.getD 1 (""))
    let dd := zOfStr (dp.getD 2 (""))
    let hh := zOfStr (tp.getD 0 (""))
    let mi := zOfStr (tp.getD 1 (""))
    let se := zOfStr (tp.getD 2 ("00"))
    Except.ok (swejd y mo dd ((hh : ℚ) + (mi : ℚ) / 60 + (se : ℚ) / 3600))

/-- Query of the robust positions handler; the numeric parameters carry the
result of `Number(...)` (NaN for an unparsable string), `none` when
absent. -/
structure QueryV2 where
  date : Option String
  time : Option String
  lat : Option JSNum
  lng : Option JSNum
  tz : Option JSNum
  house_system : Option String
  hsys : Option String

/-- Resolved inputs of the robust handler after defaulting. -/
structure ResolvedV2 where
  date : String
  time : String
  lat : JSNum
  lon : JSNum
  tz : JSNum
  hsysR : String

/-- The `a || b` fallback on string parameters: an absent or empty string
falls back. -/
def jsOrStr (a : Option String) (b : String) : String :=
  match a with
  | some s => if s == "" then b else s
  | none => b

/-- `clampHouseSystem` from the source: `(s || ’P’).trim().toUpperCase()
.slice(0, 1)`. -/
def clampHouseSystem (s : String) : String :=
  let t := if s == "" then ("P") else s
  ((t.trim).map Char.toUpper).take 1

/-- The robust handler’s input resolution with its documented sample
defaults: date 1992-09-08, time 12:00:00, Adelaide coordinates, timezone
offset 0, house system P. -/
def resolveV2 (q : QueryV2) : ResolvedV2 :=
  { date := jsOrStr q.date ("1992-09-08")
    time := jsOrStr q.time ("12:00:00")
    lat := q.lat.getD (JSNum.fin (-349285 / 10000))
    lon := q.lng.getD (JSNum.fin (1386007 / 10000))
    tz := q.tz.getD (JSNum.fin 0)
    hsysR := clampHouseSystem (jsOrStr q.house_system (jsOrStr q.hsys ("P"))) }

/-- `isValidDateStr`: the regex `^\d\x7b4\x7d-\d\x7b2\x7d-\d\x7b2\x7d$`. -/
def isValidDateStr (s : String) : Bool :=
  match s.toList with
  | [y1, y2, y3, y4, s1, m1, m2, s2, d1, d2] =>
      y1.isDigit && y2.isDigit && y3.isDigit && y4.isDigit && s1 == '-' &&
        m1.isDigit && m2.isDigit && s2 == '-' && d1.isDigit && d2.isDigit
  | _ => false

/-- `isValidTimeStr`: the regex `^\d\x7b2\x7d:\d\x7b2\x7d(:\d\x7b2\x7d)?$`. -/
def isValidTimeStr (s : String) : Bool :=
  match s.toList with
  | [h1, h2, c1, m1, m2] =>
      h1.isDigit && h2.isDigit && c1 == ':' && m1.isDigit && m2.isDigit
  | [h1, h2, c1, m1, m2, c2, s1, s2] =>
      h1.isDigit && h2.isDigit && c1 == ':' && m1.isDigit && m2.isDigit &&
        c2 == ':' && s1.isDigit && s2.isDigit
  | _ => false

/-- Finiteness-and-range test `Number.isFinite(n) && lo <= n && n <= hi` as
the robust handler’s numeric validations perform it. -/
def finiteInRange (n : JSNum) (lo hi : ℚ) : Bool :=
  match n with
  | JSNum.fin q => decide (lo ≤ q) && decide (q ≤ hi)
  | _ => false

/-- The regex `^[A-Z]$` of the house-system validation. -/
def isSingleUpper (s : String) : Bool :=
  match s.toList with
  | [c] => decide ('A' ≤ c) && decide (c ≤ 'Z')
  | _ => false

/-- The robust handler’s validation chain in source order; `none` means the
request passes validation. -/
def validateV2 (r : ResolvedV2) : Option String :=
  if isValidDateStr r.date = false then some ("Invalid \x27date\x27. Use YYYY-MM-DD.")
  else if isValidTimeStr r.time = false then
    some ("Invalid \x27time\x27. Use HH:MM or HH:MM:SS (24h).")
  else if finiteInRange r.lat (-90) 90 = false then
    some ("Invalid \x27lat\x27. Range -90 to 90.")
  else if finiteInRange r.lon (-180) 180 = false then
    some ("Invalid \x27lng\x27. Range -180 to 180.")
  else if finiteInRange r.tz (-900) 900 = false then
    some ("Invalid \x27tz_offset_minutes\x27. Range -900 to 900.")
  else if isSingleUpper r.hsysR = false then
    some ("Invalid \x27house_system\x27 (or \x27hsys\x27). Provide a single letter code like \x27P\x27.")
  else none

/-- The finite rational carried by a validated numeric parameter. -/
def qOfNum : JSNum → ℚ
  | JSNum.fin q => q
  | _ => 0

/-- The robust handler’s time base: parse the resolved date and time, convert
local time to UT with `utHours = localHours - tzOffsetMinutes / 60`, and take
the pure Julian Day. -/
def jdOfResolved (r : ResolvedV2) : ℚ :=
  let dp := r.date.splitOn ("-")
  let tp := r.time.splitOn (":")
  let y := zOfStr (dp.getD 0 (""))
  let mo := zOfStr (dp.getD 1 (""))
  let dd := zOfStr (dp.getD 2 (""))
  let hh := zOfStr (tp.getD 0 (""))
  let mi := zOfStr (tp.getD 1 (""))
  let se := zOfStr (tp.getD 2 ("00"))
  let localHours : ℚ := (hh : ℚ) + (mi : ℚ) / 60 + (se : ℚ) / 3600
  julianDay y mo dd (localHours - qOfNum r.tz / 60)

/-- The robust positions handler through defaulting, validation, the Julian
Day and the per-body loop (the house branch is the subject of
`assignHouses`). -/
def handlerV2 (calcFn : String → Except String JSVal) (q : QueryV2) :
    Except String (ℚ × List Planet) :=
  match validateV2 (resolveV2 q) with
  | some e => Except.error e
  | none =>
    match handlerPlanets calcFn bodyNames with
    | Except.error e => Except.error e
    | Except.ok ps => Except.ok (jdOfResolved (resolveV2 q), ps)

/-- The all-absent query. -/
def emptyQueryV2 : QueryV2 := ⟨none, none, none, none, none, none, none⟩

/-- Twelve equal 30°-wide cusps starting at 0°. -/
def eqCusps : List ℚ := [0, 30, 60, 90, 120, 150, 180, 210, 240, 270, 300, 330]

/-- A wrapping cusp set with `cusp[0] = 20` and `cusp[11] = 350`. -/
def wrapCusps : List ℚ :=
  [20, 50, 80, 110, 140, 170, 200, 230, 260, 290, 320, 350]

/-- A provider that throws for the Moon and answers for every other body. -/
def calcThrow : String → Except String JSVal :=
  fun b => if b == ("Moon") then Except.error ("boom")
    else Except.ok (JSVal.vnum (JSNum.fin 100))

/-- A provider that returns for every body but answers the Moon with a value
carrying no extractable longitude. -/
def calcMixed : String → Except String JSVal :=
  fun b => if b == ("Moon") then Except.ok (JSVal.vobj [])
    else Except.ok (JSVal.vnum (JSNum.fin 100))

/-- A provider answering every body with longitude 7. -/
def calcSeven : String → Except String JSVal :=
  fun _ => Except.ok (JSVal.vnum (JSNum.fin 7))

/-- The two-body list used by the degradation examples. -/
def sunMoonNames : List String := ["Sun", "Moon"]

/-- A Sun entry of a chart as the chat endpoint receives it. -/
def sunObj : JSVal :=
  JSVal.vobj [("name", JSVal.vstr ("Sun")), ("degree", JSVal.vnum (JSNum.fin 10)),
    ("sign", JSVal.vstr ("Aries")), ("house", JSVal.vnum (JSNum.fin 1))]

/-- A Moon entry of a received chart. -/
def moonObj : JSVal :=
  JSVal.vobj [("name", JSVal.vstr ("Moon")), ("degree", JSVal.vnum (JSNum.fin (201 / 2))),
    ("sign", JSVal.vstr ("Cancer")), ("house", JSVal.vnum (JSNum.fin 4))]

/-- An ascendant entry of a received chart. -/
def ascObj : JSVal :=
  JSVal.vobj [("degree", JSVal.vnum (JSNum.fin 250)), ("sign", JSVal.vstr ("Sagittarius"))]

/-- A chart with Sun, Moon and ascendant. -/
def sampleChart : JSVal :=
  JSVal.vobj [("planets", JSVal.varr [sunObj, moonObj]),
    ("angles", JSVal.vobj [("asc", ascObj)])]

/-- A chart holding only the Sun. -/
def chartSunOnly : JSVal := JSVal.vobj [("planets", JSVal.varr [sunObj])]

/-- A chart with no planets and no angles. -/
def chartNoBodies : JSVal := JSVal.vobj []

/-- A chart whose `planets` member is not an array, so `find` throws. -/
def chartBadPlanets : JSVal := JSVal.vobj [("planets", JSVal.vnum (JSNum.fin 5))]

/-- A chart holding only an ascendant angle. -/
def chartAscOnly : JSVal := JSVal.vobj [("angles", JSVal.vobj [("asc", ascObj)])]

/-- On a nonnegative dividend, the JavaScript remainder by a positive modulus
lies in `[0, y)`. -/
theorem jsMod_pos_mem (x y : ℚ) (hy : 0 < y) (hx : 0 ≤ x) :
    0 ≤ jsMod x y ∧ jsMod x y < y := by
  have hq : 0 ≤ x / y := div_nonneg hx hy.le
  have h1 : ((⌊x / y⌋ : ℤ) : ℚ) ≤ x / y := Int.floor_le _
  have h2 : x / y < ((⌊x / y⌋ : ℤ) : ℚ) + 1 := Int.lt_floor_add_one _
  have hyne : y ≠ 0 := ne_of_gt hy
  have hxy : y * (x / y) = x := by field_simp
  unfold jsMod jsTrunc
  rw [if_pos hq]
  constructor
  · nlinarith
  · nlinarith

/-- On a negative dividend, the JavaScript remainder by a positive modulus
lies in `(-y, 0]`. -/
theorem jsMod_neg_mem (x y : ℚ) (hy : 0 < y) (hx : x < 0) :
    -y < jsMod x y ∧ jsMod x y ≤ 0 := by
  have hq : ¬ 0 ≤ x / y := by
    rw [not_le]
    exact div_neg_of_neg_of_pos hx hy
  have h1 : x / y ≤ ((⌈x / y⌉ : ℤ) : ℚ) := Int.le_ceil _
  have h2 : ((⌈x / y⌉ : ℤ) : ℚ) < x / y + 1 := Int.ceil_lt_add_one _
  have hyne : y ≠ 0 := ne_of_gt hy
  have hxy : y * (x / y) = x := by field_simp
  unfold jsMod jsTrunc
  rw [if_neg hq]
  constructor
  · nlinarith
  · nlinarith

/-- The JavaScript remainder differs from the dividend by an integer multiple
of the modulus. -/
theorem jsMod_sub_int (x y : ℚ) : ∃ k : ℤ, jsMod x y = x - y * k :=
  ⟨jsTrunc (x / y), rfl⟩

/-- The inner remainder of `degNorm` exceeds -360. -/
theorem jsMod360_lower (x : ℚ) : -360 < jsMod x 360 := by
  rcases le_or_lt 0 x with hx | hx
  · have h := jsMod_pos_mem x 360 (by norm_num) hx
    linarith [h.1]
  · exact (jsMod_neg_mem x 360 (by norm_num) hx).1

/-- `degNorm` always lands in `[0, 360)`. -/
theorem degNorm_mem (x : ℚ) : 0 ≤ degNorm x ∧ degNorm x < 360 := by
  have hs : 0 ≤ jsMod x 360 + 360 := by linarith [jsMod360_lower x]
  have h := jsMod_pos_mem (jsMod x 360 + 360) 360 (by norm_num) hs
  exact h

/-- `degNorm` is congruent to its argument modulo 360. -/
theorem degNorm_congr (x : ℚ) : ∃ k : ℤ, degNorm x = x - 360 * k := by
  obtain ⟨k1, h1⟩ := jsMod_sub_int x 360
  obtain ⟨k2, h2⟩ := jsMod_sub_int (jsMod x 360 + 360) 360
  refine ⟨k1 + k2 - 1, ?_⟩
  show jsMod (jsMod x 360 + 360) 360 = x - 360 * ((k1 + k2 - 1 : ℤ) : ℚ)
  rw [h2, h1]
  push_cast
  ring

/-- The sign index of `signName` is nonnegative and below 12. -/
theorem signIdx_mem (d : ℚ) : 0 ≤ ⌊degNorm d / 30⌋ ∧ ⌊degNorm d / 30⌋ < 12 := by
  have h := degNorm_mem d
  constructor
  · exact Int.floor_nonneg.mpr (div_nonneg h.1 (by norm_num))
  · apply Int.floor_lt.mpr
    push_cast
    rw [div_lt_iff₀ (by norm_num : (0:ℚ) < 30)]
    linarith [h.2]

/-- `signName` resolves to the fixed-list entry at the floor index and is
always defined. -/
theorem signName_total (d : ℚ) :
    signName d = signs.get? (⌊degNorm d / 30⌋).toNat ∧ (signName d).isSome = true := by
  have h := signIdx_mem d
  have hnot : ¬ ⌊degNorm d / 30⌋ < 0 := not_lt.mpr h.1
  have hsome : signName d = signs.get? (⌊degNorm d / 30⌋).toNat := by
    simp only [signName]
    rw [if_neg hnot]
  refine ⟨hsome, ?_⟩
  rw [hsome]
  have hlt : (⌊degNorm d / 30⌋).toNat < signs.length := by
    have : (⌊degNorm d / 30⌋).toNat < 12 := by omega
    simpa [signs] using this
  rw [List.get?_eq_get hlt]
  rfl

/-- If the scan reaches a first matching index, the loop reports that house. -/
theorem houseLoop_found (cusps : List ℚ) (d : ℚ) :
    ∀ (k i t : ℕ), i + k = 12 → i ≤ t → t < 12 → cuspMatch cusps d t = true →
      (∀ j, i ≤ j → j < t → cuspMatch cusps d j = false) →
      houseLoop cusps d i k = t + 1 := by
  intro k
  induction k with
  | zero =>
    intro i t hik hit ht _ _
    omega
  | succ k ih =>
    intro i t hik hit ht hm hfirst
    show (if cuspMatch cusps d i then i + 1 else houseLoop cusps d (i + 1) k) = t + 1
    rcases Nat.eq_or_lt_of_le hit with heq | hlt
    · subst heq
      rw [if_pos hm]
    · have hc : cuspMatch cusps d i = false := hfirst i (Nat.le_refl i) hlt
      rw [if_neg (by simp [hc])]
      exact ih (i + 1) t (by omega) (by omega) ht hm
        (fun j hj1 hj2 => hfirst j (by omega) hj2)

/-- If no index matches, the loop falls through to the default house 12. -/
theorem houseLoop_none (cusps : List ℚ) (d : ℚ) :
    ∀ (k i : ℕ), i + k = 12 → (∀ j, i ≤ j → j < 12 → cuspMatch cusps d j = false) →
      houseLoop cusps d i k = 12 := by
  intro k
  induction k with
  | zero =>
    intro i _ _
    rfl
  | succ k ih =>
    intro i hik hnone
    show (if cuspMatch cusps d i then i + 1 else houseLoop cusps d (i + 1) k) = 12
    have hc : cuspMatch cusps d i = false := hnone i (Nat.le_refl i) (by omega)
    rw [if_neg (by simp [hc])]
    exact ih (i + 1) (by omega) (fun j hj1 hj2 => hnone j (by omega) hj2)

/-- C1: with 12 cusp degrees, `assignHouses` gives every planet with a finite
degree the house `i + 1` for the first index `i` (scanning houses 1..12 in
cusp order) whose wrap-aware half-open interval
`[cusp[i], cusp[(i + 1) % 12])` contains the degree, and defaults to house 12
when no interval matches; with 12 equal 30°-wide cusps starting at 0°, a
planet at 355° is assigned house 12 and a planet at 5° house 1; with the
wrapping cusp set whose `cusp[11] = 350` and `cusp[0] = 20`, a planet at 5°
is assigned house 12. -/
theorem c1_houseAssignment :
    (∀ (cusps : List ℚ) (d : ℚ) (t : ℕ), t < 12 → cuspMatch cusps d t = true →
        (∀ j, j < t → cuspMatch cusps d j = false) → houseOf cusps d = t + 1)
    ∧ (∀ (cusps : List ℚ) (d : ℚ), (∀ j, j < 12 → cuspMatch cusps d j = false) →
        houseOf cusps d = 12)
    ∧ (∀ (planets : List Planet) (cusps : List ℚ), cusps.length = 12 →
        assignHouses planets cusps = planets.map (houseUpd cusps))
    ∧ houseOf eqCusps 355 = 12 ∧ houseOf eqCusps 5 = 1 ∧ houseOf wrapCusps 5 = 12 := by
  refine ⟨?_, ?_, ?_, by decide, by decide, by decide⟩
  · intro cusps d t ht hm hfirst
    exact houseLoop_found cusps d 12 0 t (by omega) (Nat.zero_le t) ht hm
      (fun j _ hj2 => hfirst j hj2)
  · intro cusps d hnone
    exact houseLoop_none cusps d 12 0 (by omega) (fun j _ hj2 => hnone j hj2)
  · intro planets cusps hlen
    simp [assignHouses, hlen]

/-- Witness for C1 at a concrete first-matching input: the planet at 45° in
the equal cusp set falls in house 2. -/
theorem c1_houseAssignment_witness : houseOf eqCusps 45 = 2 :=
  c1_houseAssignment.1 eqCusps 45 1 (by omega) (by decide) (by decide)

/-- C2: `julianDay` coincides with the civil-calendar Julian Day formula of
the specification at every Gregorian date and UT hour value, and
`julianDay 1992 9 8 12 = 2448874`. -/
theorem c2_julianDay :
    (∀ (y m d : ℤ) (utHours : ℚ), julianDay y m d utHours = toJulianDaySpec y m d utHours)
    ∧ julianDay 1992 9 8 12 = 2448874 := by
  constructor
  · intro y m d utHours
    rfl
  · norm_num [julianDay]

/-- C4: for every degree value `x`, `degNorm x` lies in `[0, 360)` and is
congruent to `x` modulo 360. -/
theorem c4_normalizeDegree (x : ℚ) :
    (0 ≤ degNorm x ∧ degNorm x < 360) ∧ ∃ k : ℤ, degNorm x = x - 360 * k :=
  ⟨degNorm_mem x, degNorm_congr x⟩

/-- C5: `signName` is total and piecewise constant: it always returns the
fixed-list entry at index `floor(degNorm d / 30)`, and in particular maps 0
and 29.99 to Aries, 30 to Taurus, 359.99 to Pisces and 360 back to Aries. -/
theorem c5_zodiacSign :
    (∀ d : ℚ, signName d = signs.get? (⌊degNorm d / 30⌋).toNat ∧ (signName d).isSome = true)
    ∧ signName 0 = some ("Aries") ∧ signName (2999 / 100) = some ("Aries")
    ∧ signName 30 = some ("Taurus") ∧ signName (35999 / 100) = some ("Pisces")
    ∧ signName 360 = some ("Aries") := by
  refine ⟨signName_total, ?_, ?_, ?_, ?_, ?_⟩
  · with_unfolding_all decide
  · with_unfolding_all decide
  · with_unfolding_all decide
  · with_unfolding_all decide
  · with_unfolding_all decide

/-- C3: `extractLongitude` is total and never throws (it is a plain function
into `Option`), an unextractable result degrades the owning planet entry to
an absent degree with sign `Unknown` instead of aborting, the inputs `null`,
an empty object and `NaN` all yield the absent value, and the shape probes
apply in their fixed priority order: a `data` array’s first element beats the
named fields, `longitude` beats `lon`, and an array’s first element and a
plain finite number are accepted last. -/
theorem c3_extractLongitude :
    (∀ (nm : String) (r : JSVal), extractLongitude r = none →
        mkPlanet nm r = { name := nm, degree := none, sign := some ("Unknown"), house := none })
    ∧ extractLongitude JSVal.vnull = none
    ∧ extractLongitude (JSVal.vobj []) = none
    ∧ extractLongitude (JSVal.vnum JSNum.nan) = none
    ∧ extractLongitude (JSVal.vobj [("data", JSVal.varr [JSVal.vnum (JSNum.fin 7)]),
        ("longitude", JSVal.vnum (JSNum.fin 9))]) = some 7
    ∧ extractLongitude (JSVal.vobj [("longitude", JSVal.vnum (JSNum.fin 9)),
        ("lon", JSVal.vnum (JSNum.fin 4))]) = some 9
    ∧ extractLongitude (JSVal.vobj [("lon", JSVal.vnum (JSNum.fin 4))]) = some 4
    ∧ extractLongitude (JSVal.varr [JSVal.vnum (JSNum.fin 3), JSVal.vnum (JSNum.fin 99)]) = some 3
    ∧ extractLongitude (JSVal.vnum (JSNum.fin 5)) = some 5 := by
  refine ⟨?_, by decide, by decide, by decide, by decide, by decide, by decide, by decide,
    by decide⟩
  intro nm r h
  simp [mkPlanet, h]

/-- Witness for C3: the provider result `null` produces the degraded Sun
entry with sign `Unknown` and no degree. -/
theorem c3_extractLongitude_witness :
    mkPlanet ("Sun") JSVal.vnull =
      { name := ("Sun"), degree := none, sign := some ("Unknown"), house := none } :=
  c3_extractLongitude.1 ("Sun") JSVal.vnull (by decide)

/-- Counterexample to C6 as stated: a provider that throws for the Moon while
answering the Sun makes the per-body loop propagate the exception, so the
whole request fails with the caught error and no body at all is reported —
the Sun is not reported either, contradicting the claim that other bodies
still are. -/
theorem c6_counterexample :
    handlerPlanets calcThrow sunMoonNames = Except.error ("boom") := rfl

/-- All-returned provider calls produce exactly one planet entry per body,
each from its own result alone. -/
theorem handlerPlanets_allOk (calcFn : String → Except String JSVal) :
    ∀ bodies : List String, (∀ b ∈ bodies, isOkE (calcFn b) = true) →
      handlerPlanets calcFn bodies =
        Except.ok (bodies.map (fun b => mkPlanet b (okValue (calcFn b)))) := by
  intro bodies
  induction bodies with
  | nil => intro _; rfl
  | cons b rest ih =>
    intro h
    have hb : isOkE (calcFn b) = true := h b (List.mem_cons_self b rest)
    have hrest := ih (fun x hx => h x (List.mem_cons_of_mem b hx))
    show (match calcFn b with
      | Except.error e => Except.error e
      | Except.ok v =>
        match handlerPlanets calcFn rest with
        | Except.error e => Except.error e
        | Except.ok ps => Except.ok (mkPlanet b v :: ps)) = _
    cases hcb : calcFn b with
    | error e => rw [hcb] at hb; simp [isOkE] at hb
    | ok v =>
      rw [hrest]
      simp [List.map_cons, hcb, okValue]

/-- A provider throw at any position in the body list aborts the whole
per-body loop with that error. -/
theorem handlerPlanets_throw (calcFn : String → Except String JSVal) :
    ∀ (pre : List String) (b : String) (post : List String) (e : String),
      (∀ x ∈ pre, isOkE (calcFn x) = true) → calcFn b = Except.error e →
      handlerPlanets calcFn (pre ++ b :: post) = Except.error e := by
  intro pre
  induction pre with
  | nil =>
    intro b post e _ hb
    show (match calcFn b with
      | Except.error e => Except.error e
      | Except.ok v =>
        match handlerPlanets calcFn post with
        | Except.error e => Except.error e
        | Except.ok ps => Except.ok (mkPlanet b v :: ps)) = Except.error e
    rw [hb]
  | cons a rest ih =>
    intro b post e hpre hb
    have ha : isOkE (calcFn a) = true := hpre a (List.mem_cons_self a rest)
    have hrest := ih b post e (fun x hx => hpre x (List.mem_cons_of_mem a hx)) hb
    show (match calcFn a with
      | Except.error e => Except.error e
      | Except.ok v =>
        match handlerPlanets calcFn (rest ++ b :: post) with
        | Except.error e => Except.error e
        | Except.ok ps => Except.ok (mkPlanet a v :: ps)) = Except.error e
    cases hca : calcFn a with
    | error e2 => rw [hca] at ha; simp [isOkE] at ha
    | ok v => rw [hrest]

/-- C6 as amended: when the provider returns a result for every body —
extractable or not — the loop reports one entry per body, each computed from
that body’s own result, and a body whose result carries no extractable
longitude is degraded to the `Unknown` sentinel while the others are
unaffected; a provider that throws for some body instead aborts the whole
per-body loop with that error (surfaced by the handler’s catch), reporting no
bodies at all. -/
theorem c6_partialDegradation :
    (∀ (calcFn : String → Except String JSVal) (bodies : List String),
        (∀ b ∈ bodies, isOkE (calcFn b) = true) →
        handlerPlanets calcFn bodies =
          Except.ok (bodies.map (fun b => mkPlanet b (okValue (calcFn b)))))
    ∧ (∀ (nm : String) (r : JSVal), extractLongitude r = none →
        mkPlanet nm r = { name := nm, degree := none, sign := some ("Unknown"), house := none })
    ∧ (∀ (calcFn : String → Except String JSVal) (pre : List String) (b : String)
        (post : List String) (e : String),
        (∀ x ∈ pre, isOkE (calcFn x) = true) → calcFn b = Except.error e →
        handlerPlanets calcFn (pre ++ b :: post) = Except.error e) := by
  refine ⟨handlerPlanets_allOk, ?_, handlerPlanets_throw⟩
  intro nm r h
  simp [mkPlanet, h]

/-- Witness for C6: the provider that answers the Moon with an empty object
degrades only the Moon, the Sun entry being computed normally. -/
theorem c6_partialDegradation_witness :
    handlerPlanets calcMixed sunMoonNames =
      Except.ok (sunMoonNames.map (fun b => mkPlanet b (okValue (calcMixed b)))) :=
  c6_partialDegradation.1 calcMixed sunMoonNames (by decide)

/-- Counterexample to C7 as stated: the robust positions handler given the
query with all of date, time, lat and lng absent does not return a validation
failure — it substitutes its documented sample defaults, passes validation,
and performs the computation, producing the sample Julian Day 2448874 and a
full planet list from the provider. -/
theorem c7_counterexample :
    handlerV2 calcSeven emptyQueryV2 =
      Except.ok ((2448874 : ℚ),
        bodyNames.map (fun b => Planet.mk b (some 7) (some ("Aries")) none)) := by
  with_unfolding_all rfl

/-- C7 as amended: the basic positions handler rejects any request missing
(or supplying empty) date, time, lat or lng with the single 400 message
before any computation — uniformly in the provider, which is therefore never
consulted — while the robust handler substitutes its documented sample
defaults for absent parameters, passes validation on the all-absent query,
and proceeds to compute the sample Julian Day. -/
theorem c7_missingParams :
    (∀ (swejd : ℤ → ℤ → ℤ → ℚ → ℚ) (q : QueryV1), missingAnyV1 q = true →
        handlerV1jd swejd q = Except.error missingMsg)
    ∧ validateV2 (resolveV2 emptyQueryV2) = none
    ∧ jdOfResolved (resolveV2 emptyQueryV2) = 2448874 := by
  refine ⟨?_, by with_unfolding_all decide, by with_unfolding_all rfl⟩
  intro swejd q h
  simp [handlerV1jd, h]

/-- Witness for C7 (amended): the all-absent basic query is rejected with the
missing-parameter error. -/
theorem c7_missingParams_witness :
    handlerV1jd (fun _ _ _ _ => 0) ⟨none, none, none, none⟩ = Except.error missingMsg :=
  c7_missingParams.1 (fun _ _ _ _ => 0) ⟨none, none, none, none⟩ (by decide)

/-- C8: `route` is total with exactly five possible outputs — the four fixed
topic guidance texts in the priority order career/work, love/relationship,
purpose/life, health/wellbeing, and the generic prompt when no keyword
matches — and the message asking about both career and love receives the
career guidance because career is checked first. -/
theorem c8_route :
    (∀ m : String, route m = careerGuidance ∨ route m = loveGuidance ∨
        route m = purposeGuidance ∨ route m = healthGuidance ∨ route m = genericGuidance)
    ∧ route ("What about my career and love life?") = careerGuidance := by
  constructor
  · intro m
    simp only [route]
    by_cases h1 : (jsIncludes (lowerStr m) ("career") || jsIncludes (lowerStr m) ("work")) = true
    · rw [if_pos h1]
      exact Or.inl rfl
    · rw [if_neg h1]
      by_cases h2 : (jsIncludes (lowerStr m) ("love") ||
          jsIncludes (lowerStr m) ("relationship")) = true
      · rw [if_pos h2]
        exact Or.inr (Or.inl rfl)
      · rw [if_neg h2]
        by_cases h3 : (jsIncludes (lowerStr m) ("purpose") ||
            jsIncludes (lowerStr m) ("life")) = true
        · rw [if_pos h3]
          exact Or.inr (Or.inr (Or.inl rfl))
        · rw [if_neg h3]
          by_cases h4 : (jsIncludes (lowerStr m) ("health") ||
              jsIncludes (lowerStr m) ("wellbeing")) = true
          · rw [if_pos h4]
            exact Or.inr (Or.inr (Or.inr (Or.inl rfl)))
          · rw [if_neg h4]
            exact Or.inr (Or.inr (Or.inr (Or.inr rfl)))
  · with_unfolding_all decide

/-- Counterexample to C9 as stated: the ascendant part of a summary is not
formatted with the claimed `H<house-or-dash>` component — a chart holding
only an ascendant summarizes to a string without any house field. -/
theorem c9_counterexample :
    makeSummary chartAscOnly = ("Asc 250.00° Sagittarius")
    ∧ makeSummary chartAscOnly ≠ ("Asc 250.00° Sagittarius H-") := by
  constructor
  · with_unfolding_all decide
  · with_unfolding_all decide

/-- C9 as amended: `makeSummary` finds the Sun, the Moon and the ascendant
angle (each if present), formats the Sun and the Moon as
`<Body> <degree>° <sign> H<house-or-dash>` but the ascendant as
`Asc <degree>° <sign>` with no house component, joins the parts with the
bullet separator, simply omits missing bodies, and returns the empty string
on any internal failure instead of propagating it. -/
theorem c9_summarize :
    (∀ chart : JSVal, makeSummaryCore chart = Except.error () → makeSummary chart = "")
    ∧ makeSummary sampleChart =
        ("Sun 10.00° Aries H1 • Moon 100.50° Cancer H4 • Asc 250.00° Sagittarius")
    ∧ makeSummary chartSunOnly = ("Sun 10.00° Aries H1")
    ∧ makeSummary chartNoBodies = ""
    ∧ makeSummary chartBadPlanets = "" := by
  refine ⟨?_, by with_unfolding_all decide, by with_unfolding_all decide,
    by with_unfolding_all decide, by with_unfolding_all decide⟩
  intro chart h
  simp [makeSummary, h]

/-- Witness for C9 (amended): the chart whose `planets` member is a number
makes the summary body throw, and the catch converts that to the empty
string. -/
theorem c9_summarize_witness : makeSummary chartBadPlanets = "" :=
  c9_summarize.1 chartBadPlanets (by with_unfolding_all rfl)

/-- C10: the chat endpoint’s presence check is a truthiness test: a POST body
whose `message` is the empty string is rejected with the same 400 response as
one with no `message` at all (for every chart value), a `chart` of null or 0
is likewise rejected, and no reply is ever composed from an empty message. -/
theorem c10_chatValidation :
    (∀ (body : JSVal) (r : String),
        getProp (if truthy body then body else JSVal.vobj []) ("message") = JSVal.vstr ("") →
        chatHandler ("POST") body ≠ ChatResp.ok r)
    ∧ (∀ chart : JSVal,
        chatHandler ("POST") (JSVal.vobj [("message", JSVal.vstr ("")), ("chart", chart)]) =
          ChatResp.badReq provideMsg
        ∧ chatHandler ("POST") (JSVal.vobj [("message", JSVal.vstr ("")), ("chart", chart)]) =
            chatHandler ("POST") (JSVal.vobj [("chart", chart)]))
    ∧ chatHandler ("POST") (JSVal.vobj [("message", JSVal.vstr ("hi")),
        ("chart", JSVal.vnull)]) = ChatResp.badReq provideMsg
    ∧ chatHandler ("POST") (JSVal.vobj [("message", JSVal.vstr ("hi")),
        ("chart", JSVal.vnum (JSNum.fin 0))]) = ChatResp.badReq provideMsg := by
  refine ⟨?_, ?_, by decide, by decide⟩
  · intro body r h
    simp only [chatHandler]
    rw [if_neg (by simp : ¬ ("POST" : String) ≠ ("POST"))]
    rw [h]
    intro hok
    simp [truthy] at hok
  · intro chart
    exact ⟨rfl, rfl⟩

/-- Witness for C10: the body carrying an empty message and a valid chart is
never answered with a composed reply. -/
theorem c10_chatValidation_witness :
    chatHandler ("POST") (JSVal.vobj [("message", JSVal.vstr ("")), ("chart", sampleChart)]) ≠
      ChatResp.ok ("x") :=
  c10_chatValidation.1 (JSVal.vobj [("message", JSVal.vstr ("")), ("chart", sampleChart)])
    ("x") (by rfl)
